import Mathlib

/-!
Shallow embedding of the proxy module of the lssh repository (package sshlib,
file proxy.go, 294 lines). The module builds proxy-aware dialers: an HTTP
CONNECT dialer, a SOCKS5 adapter, a command tunnel (NetPipe), and a wrapper
(ContextDialer) adding cancellation. Library calls (url.Parse, the network,
http.ReadResponse, process start) are modelled as explicit oracle parameters;
control flow, field updates and nil-pointer behaviour follow the source.
A Go runtime panic (for example a nil pointer dereference) is modelled by the
crash constructor of the result types below, distinct from an ordinary
returned error.
-/

/-- A network connection handle (net.Conn). Only identity matters for the
properties proved here. -/
structure Conn where
  id : Nat
  deriving DecidableEq

/-- A Go error value. Context errors (context.Canceled and
context.DeadlineExceeded) are sentinel values distinguishable from ordinary
errors built with fmt.Errorf or errors.New, so they get their own
constructors. -/
inductive Err where
  | msg : String → Err
  | ctxCanceled : Err
  | ctxDeadlineExceeded : Err
  deriving DecidableEq

/-- True exactly on the two context sentinel errors. -/
def Err.isCtxErr : Err → Bool
  | Err.msg _ => false
  | Err.ctxCanceled => true
  | Err.ctxDeadlineExceeded => true

/-- Why a context became done: cancellation or deadline expiry. -/
inductive CtxDone where
  | canceled
  | deadlineExceeded
  deriving DecidableEq

/-- The value of ctx.Err() once the context is done. -/
def CtxDone.err : CtxDone → Err
  | CtxDone.canceled => Err.ctxCanceled
  | CtxDone.deadlineExceeded => Err.ctxDeadlineExceeded

/-- Result of a Go call returning (net.Conn, error): a connection, an
ordinary error, or a runtime panic (crash). -/
inductive GoResult (α : Type) where
  | ok : α → GoResult α
  | error : Err → GoResult α
  | crash : String → GoResult α
  deriving DecidableEq

/-- Result of a Go call whose error component is part of the returned value
(the multi-value returns of the factory functions): either the returned
tuple, or a runtime panic (crash). -/
inductive GoStep (α : Type) where
  | ok : α → GoStep α
  | crash : String → GoStep α
  deriving DecidableEq

/-- The message of the Go runtime panic raised by a nil pointer
dereference. -/
def nilDerefMsg : String := "runtime error: invalid memory address or nil pointer dereference"

/-- proxy.Auth from golang.org x net proxy: SOCKS5 credentials. -/
structure Auth where
  User : String
  Password : String
  deriving DecidableEq

/-- Which dialer reaches the proxy itself: proxy.Direct, or the custom
Forwarder stored in the configuration. -/
inductive FwdChoice where
  | direct
  | custom
  deriving DecidableEq

/-- The httpProxy structure of proxy.go (lines 228 to 234). -/
structure httpProxy where
  host : String
  haveAuth : Bool
  username : String
  password : String
  forward : FwdChoice
  deriving DecidableEq

/-- State of a started OS process (os.Process). -/
structure ProcState where
  exited : Bool
  deriving DecidableEq

/-- State of an exec.Cmd value. Its Process field is nil (none) until Start
succeeds. -/
structure CmdState where
  process : Option ProcState
  deriving DecidableEq

/-- The NetPipe structure of proxy.go (lines 171 to 175): the command tunnel
dialer. Cmd is a nil pointer (none) until Dial assigns it. -/
structure NetPipe where
  Command : String
  Cmd : Option CmdState
  deriving DecidableEq

/-- The concrete proxy.Dialer variants this module can construct. -/
inductive PDialer where
  | httpP : httpProxy → PDialer
  | socks5P : String → String → Option Auth → FwdChoice → PDialer
  | netPipeP : NetPipe → PDialer
  deriving DecidableEq

/-- Userinfo of a parsed URL. -/
structure UserInfo where
  username : String
  password : String
  deriving DecidableEq

/-- The fields of a parsed url.URL that this module reads. -/
structure URLRec where
  scheme : String
  host : String
  user : Option UserInfo
  deriving DecidableEq

/-- The Proxy configuration structure of proxy.go (lines 68 to 97). The
field typ stands for the Go field Type (a reserved word in Lean); Forwarder
is a nilable interface value whose behaviour is not read at construction
time, so only its presence is modelled. -/
structure Proxy where
  typ : String
  Addr : String
  Port : String
  User : String
  Password : String
  Command : String
  Forwarder : Option Unit
  deriving DecidableEq

/-- The ContextDialer structure of proxy.go (lines 25 to 27): a wrapper
holding a nilable proxy.Dialer interface value. It is parametric in the
representation of the wrapped dialer: the factory stores the symbolic
PDialer it constructed, while the dial operations read the behaviour of the
wrapped dialer (GoDialer below). A nil interface is none in either
instantiation. -/
structure ContextDialer (α : Type) where
  Dialer : Option α
  deriving DecidableEq

/-- GetDialer of proxy.go (lines 29 to 31). -/
def ContextDialer.GetDialer {α : Type} (c : ContextDialer α) : Option α :=
  c.Dialer

/-- newHttpProxy of proxy.go (lines 284 to 294): build an httpProxy from a
parsed URL; haveAuth is set exactly when the URL carries userinfo, and the
credential fields keep their zero value (the empty string) otherwise. -/
def newHttpProxy (uri : URLRec) (forward : FwdChoice) : httpProxy :=
  { host := uri.host
    forward := forward
    haveAuth := uri.user.isSome
    username := match uri.user with | some ui => ui.username | none => ""
    password := match uri.user with | some ui => ui.password | none => "" }

/-- proxy.FromURL of golang.org x net proxy, with the http and https dialer
types registered to newHttpProxy (proxy.go lines 119 to 120 perform the
registration). A nil URL (the discarded url.Parse failure) makes the switch
on u.Scheme dereference a nil pointer. The built in socks5 schemes build a
SOCKS5 dialer, taking credentials from the URL userinfo; an unknown scheme
yields a nil dialer and an error. -/
def FromURL (u : Option URLRec) (forward : FwdChoice) : GoStep (Option PDialer × Option Err) :=
  match u with
  | none => GoStep.crash nilDerefMsg
  | some uu =>
    if uu.scheme = "socks5" ∨ uu.scheme = "socks5h" then
      GoStep.ok (some (PDialer.socks5P "tcp" uu.host
        (uu.user.map (fun ui => { User := ui.username, Password := ui.password })) forward), none)
    else if uu.scheme = "http" ∨ uu.scheme = "https" then
      GoStep.ok (some (PDialer.httpP (newHttpProxy uu forward)), none)
    else
      GoStep.ok (none, some (Err.msg ("proxy: unknown scheme: " ++ uu.scheme)))

/-- The proxy URL string built by CreateHttpProxyDialer (proxy.go lines 122
to 129): credentials are embedded exactly when both User and Password are
non empty, and the port is appended when non empty. -/
def proxyURLString (p : Proxy) : String :=
  let proxyURL :=
    if p.User ≠ "" ∧ p.Password ≠ "" then
      p.typ ++ "://" ++ p.User ++ ":" ++ p.Password ++ "@" ++ p.Addr
    else
      p.typ ++ "://" ++ p.Addr
  if p.Port ≠ "" then proxyURL ++ ":" ++ p.Port else proxyURL

/-- CreateHttpProxyDialer of proxy.go (lines 117 to 141). The url.Parse
result is supplied by the urlParse oracle; the source discards the parse
error (line 131), so a failed parse leaves a nil URL that FromURL then
dereferences. The forwarder defaults to proxy.Direct and is overridden by a
non nil Forwarder field. -/
def Proxy.CreateHttpProxyDialer (p : Proxy) (urlParse : String → Option URLRec) :
    GoStep (Option PDialer × Option Err) :=
  let proxyURI : Option URLRec := urlParse (proxyURLString p)
  let forwarder : FwdChoice := if p.Forwarder.isSome then FwdChoice.custom else FwdChoice.direct
  FromURL proxyURI forwarder

/-- net.JoinHostPort: brackets the host when it contains a colon or a
percent sign. The character search runs over the character list of the
string so that it evaluates by computation. -/
def joinHostPort (host port : String) : String :=
  if host.data.contains ':' ∨ host.data.contains '%' then
    "[" ++ host ++ "]:" ++ port
  else
    host ++ ":" ++ port

/-- CreateSocks5ProxyDialer of proxy.go (lines 144 to 159). The source
declares proxyAuth as a nil pointer (var proxyAuth proxy.Auth pointer) and,
when both User and Password are non empty, assigns through that nil pointer
(lines 148 to 149), which is a runtime panic. With at most one credential
set, the nil (none) auth is passed through to proxy.SOCKS5, which never
fails at construction time. -/
def Proxy.CreateSocks5ProxyDialer (p : Proxy) : GoStep (Option PDialer × Option Err) :=
  let proxyAuth : Option Auth := none
  if p.User ≠ "" ∧ p.Password ≠ "" then
    GoStep.crash nilDerefMsg
  else
    let forwarder : FwdChoice := if p.Forwarder.isSome then FwdChoice.custom else FwdChoice.direct
    GoStep.ok (some (PDialer.socks5P "tcp" (joinHostPort p.Addr p.Port) proxyAuth forwarder), none)

/-- CreateProxyCommandProxyDialer of proxy.go (lines 163 to 169): a fresh
NetPipe with the configured command and a nil Cmd field; never fails. -/
def Proxy.CreateProxyCommandProxyDialer (p : Proxy) : GoStep (Option PDialer × Option Err) :=
  GoStep.ok (some (PDialer.netPipeP { Command := p.Command, Cmd := none }), none)

/-- CreateProxyDialer of proxy.go (lines 100 to 114): the switch on the Type
field selects a constructor; on any other value both the dialer and the
error keep their zero values (nil), and the nil dialer is still wrapped in a
ContextDialer. -/
def Proxy.CreateProxyDialer (p : Proxy) (urlParse : String → Option URLRec) :
    GoStep (ContextDialer PDialer × Option Err) :=
  let step : GoStep (Option PDialer × Option Err) :=
    if p.typ = "http" ∨ p.typ = "https" then Proxy.CreateHttpProxyDialer p urlParse
    else if p.typ = "socks" ∨ p.typ = "socks5" then Proxy.CreateSocks5ProxyDialer p
    else if p.typ = "command" then Proxy.CreateProxyCommandProxyDialer p
    else GoStep.ok (none, none)
  match step with
  | GoStep.crash m => GoStep.crash m
  | GoStep.ok (d, e) => GoStep.ok ({ Dialer := d }, e)

/-- Behaviour of a wrapped proxy.Dialer interface value, as the
ContextDialer wrapper observes it: the blocking Dial method, and, when the
dynamic type also implements DialContext (the type assertion at proxy.go
lines 39 to 41), that method. -/
structure GoDialer where
  dial : String → String → GoResult Conn
  dialContext : Option (Option CtxDone → String → String → GoResult Conn)

/-- Outcome of the select at proxy.go lines 58 to 65, racing the background
dial against ctx.Done(): either the dial result arrives first, or the
context becomes done first. -/
inductive RaceEvent where
  | dialCompleted
  | ctxFired : CtxDone → RaceEvent
  deriving DecidableEq

/-- ContextDialer.Dial of proxy.go (lines 33 to 35): calls Dial on the
wrapped dialer. When the wrapped interface value is nil, the method call on
the nil interface is a runtime panic. -/
def ContextDialer.Dial (c : ContextDialer GoDialer) (network addr : String) : GoResult Conn :=
  match c.Dialer with
  | none => GoResult.crash nilDerefMsg
  | some d => d.dial network addr

/-- ContextDialer.DialContext of proxy.go (lines 37 to 66). When the
wrapped dialer implements DialContext, delegate directly. Otherwise run the
blocking Dial in a goroutine and select between its result channels and
ctx.Done(); the select outcome is the RaceEvent parameter. A nil wrapped
interface makes the background goroutine dereference nil, an unrecovered
panic that brings the program down. -/
def ContextDialer.DialContext (c : ContextDialer GoDialer) (ctx : Option CtxDone)
    (ev : RaceEvent) (network addr : String) : GoResult Conn :=
  match c.Dialer with
  | none => GoResult.crash nilDerefMsg
  | some d =>
    match d.dialContext with
    | some f => f ctx network addr
    | none =>
      match ev with
      | RaceEvent.dialCompleted =>
        match d.dial network addr with
        | GoResult.ok conn => GoResult.ok conn
        | GoResult.error e => GoResult.error e
        | GoResult.crash m => GoResult.crash m
      | RaceEvent.ctxFired dn => GoResult.error dn.err

/-- The fields of an http.Response that httpProxy.Dial reads. -/
structure HttpResponse where
  StatusCode : Int
  deriving DecidableEq

/-- Oracle for the library calls made during one httpProxy.Dial: the result
of s.forward.Dial, and the error outcomes of url.Parse, http.NewRequest,
req.Write and http.ReadResponse. -/
structure HttpDialEnv where
  forwardDial : Except Err Conn
  parseErr : Option Err
  newRequestErr : Option Err
  writeErr : Option Err
  readResponse : Except Err HttpResponse

/-- Which resources one httpProxy.Dial call closed before returning:
the proxy connection c, and the response body. -/
structure DialTrace where
  connClosed : Bool
  bodyClosed : Bool
  deriving DecidableEq

/-- httpProxy.Dial of proxy.go (lines 237 to 281). Each early return closes
the connection first (lines 245, 252, 263). On a ReadResponse failure the
source calls resp.Body.Close() with resp nil (line 269) before reaching
c.Close(), a runtime panic: the connection is not closed and the parse
error is never returned. On a parsed response the body is closed (line
273), then a status other than 200 closes the connection and returns the
formatted error of line 276, and status 200 returns the forwarded
connection with a nil error. -/
def httpProxy.Dial (s : httpProxy) (env : HttpDialEnv) : GoResult Conn × DialTrace :=
  match env.forwardDial with
  | Except.error e => (GoResult.error e, { connClosed := false, bodyClosed := false })
  | Except.ok c =>
    match env.parseErr with
    | some e => (GoResult.error e, { connClosed := true, bodyClosed := false })
    | none =>
      match env.newRequestErr with
      | some e => (GoResult.error e, { connClosed := true, bodyClosed := false })
      | none =>
        match env.writeErr with
        | some e => (GoResult.error e, { connClosed := true, bodyClosed := false })
        | none =>
          match env.readResponse with
          | Except.error _ =>
            (GoResult.crash nilDerefMsg, { connClosed := false, bodyClosed := false })
          | Except.ok resp =>
            if resp.StatusCode ≠ 200 then
              (GoResult.error (Err.msg ("Connect server using proxy error, StatusCode ["
                  ++ toString resp.StatusCode ++ "]")),
                { connClosed := true, bodyClosed := true })
            else
              (GoResult.ok c, { connClosed := false, bodyClosed := true })

/-- The two ends of net.Pipe(): the client end con returned to the caller
and the server end srv wired to the process. -/
structure PipeEnds where
  client : Conn
  server : Conn
  deriving DecidableEq

/-- Which pipe ends one NetPipe.Dial call closes: the source never closes
the client end, and the exit watcher goroutine (lines 195 to 198) closes
the server end once Cmd.Wait returns (immediately, when the process never
started). -/
structure PipeTrace where
  clientClosed : Bool
  serverClosed : Bool
  deriving DecidableEq

/-- NetPipe.Dial of proxy.go (lines 177 to 201). The network and address
parameters are overwritten with the empty string and ignored. net.Pipe()
always yields both ends; the command is spawned with its stdin and stdout
bound to the server end; startErr is the result of Cmd.Start(). The named
return con is the client end in every case, so a start failure still hands
the open client end back together with the error. -/
def NetPipe.Dial (n : NetPipe) (pipe : PipeEnds) (startErr : Option Err) :
    (Conn × Option Err) × NetPipe × PipeTrace :=
  let cmd : CmdState :=
    { process := if startErr.isNone then some { exited := false } else none }
  ((pipe.client, startErr),
    { n with Cmd := some cmd },
    { clientClosed := false, serverClosed := true })

/-- How far the background goroutine of NetPipe.DialContext has progressed
when the select observes ctx.Done(): before the assignment to n.Cmd at line
184, after that assignment but before Start returned, or after Start
returned (with its success recorded, and whether an ok-started process has
already exited). -/
inductive DialProgress where
  | beforeAssign
  | afterAssignBeforeStart
  | afterStart : Bool → Bool → DialProgress
  deriving DecidableEq

/-- The value of the Cmd field of the NetPipe at the moment the
cancellation branch runs, for a given progress point of the background
goroutine. -/
def cmdAtCancel (n : NetPipe) : DialProgress → Option CmdState
  | DialProgress.beforeAssign => n.Cmd
  | DialProgress.afterAssignBeforeStart => some { process := none }
  | DialProgress.afterStart startOk exited =>
    some { process := if startOk then some { exited := exited } else none }

/-- Outcome of the select at proxy.go lines 217 to 225: the dial result
arrives first (with the pipe ends and start outcome of that dial), or
ctx.Done() fires first while the background goroutine is at the given
progress point. -/
inductive NetPipeRace where
  | dialFirst : PipeEnds → Option Err → NetPipeRace
  | ctxFirst : CtxDone → DialProgress → NetPipeRace
  deriving DecidableEq

/-- NetPipe.DialContext of proxy.go (lines 203 to 226). The goroutine sends
the error when Dial returned one, else the connection. On cancellation the
source runs n.Cmd.Process.Kill() and returns ctx.Err(); when n.Cmd is still
nil, or Cmd.Process is nil because Start has not succeeded, that chain is a
nil pointer dereference. Killing an already exited process only yields an
ignored error. -/
def NetPipe.DialContext (n : NetPipe) (ev : NetPipeRace) : GoResult Conn :=
  match ev with
  | NetPipeRace.dialFirst pipe startErr =>
    let r := (NetPipe.Dial n pipe startErr).1
    match r.2 with
    | some e => GoResult.error e
    | none => GoResult.ok r.1
  | NetPipeRace.ctxFirst dn progress =>
    match cmdAtCancel n progress with
    | none => GoResult.crash nilDerefMsg
    | some cmd =>
      match cmd.process with
      | none => GoResult.crash nilDerefMsg
      | some _ => GoResult.error dn.err

/-- A SOCKS5 configuration with both credentials set. -/
def pSocksBoth : Proxy :=
  { typ := "socks5", Addr := "127.0.0.1", Port := "1080", User := "alice",
    Password := "secret", Command := "", Forwarder := none }

/-- A SOCKS5 configuration with only the user set. -/
def pSocksUserOnly : Proxy :=
  { pSocksBoth with Password := "" }

/-- A SOCKS5 configuration with only the password set. -/
def pSocksPassOnly : Proxy :=
  { pSocksBoth with User := "" }

/-- A SOCKS5 configuration with no credentials. -/
def pSocksNone : Proxy :=
  { pSocksBoth with User := "", Password := "" }

/-- A configuration whose Type is none of the recognized values. -/
def pBogus : Proxy :=
  { typ := "bogus", Addr := "proxy.example", Port := "8080", User := "",
    Password := "", Command := "", Forwarder := none }

/-- A url.Parse oracle on which every parse fails (url.Parse returns a nil
URL and an error). -/
def parseFail : String → Option URLRec := fun _ => none

/-- Claim C1 (evaluation of the code at the failing input): constructing
the SOCKS5 dialer with both credentials non empty assigns through the nil
proxy.Auth pointer and panics, so authentication is never enabled; with at
most one credential set, construction returns a dialer with no
authentication and a nil error. -/
theorem socks5_auth_construction_eval :
    Proxy.CreateSocks5ProxyDialer pSocksBoth = GoStep.crash nilDerefMsg ∧
    Proxy.CreateSocks5ProxyDialer pSocksUserOnly =
      GoStep.ok (some (PDialer.socks5P "tcp" "127.0.0.1:1080" none FwdChoice.direct), none) ∧
    Proxy.CreateSocks5ProxyDialer pSocksPassOnly =
      GoStep.ok (some (PDialer.socks5P "tcp" "127.0.0.1:1080" none FwdChoice.direct), none) ∧
    Proxy.CreateSocks5ProxyDialer pSocksNone =
      GoStep.ok (some (PDialer.socks5P "tcp" "127.0.0.1:1080" none FwdChoice.direct), none) := by
  refine ⟨by decide, by decide, by decide, by decide⟩

/-- Claim C2 (evaluation of the code at the failing input): for an
unrecognized Type the factory returns, with a nil error, a wrapper around a
nil dialer, and the first use of that wrapper (Dial or the DialContext
fallback) is a nil pointer dereference panic, not a returned error. -/
theorem unrecognized_type_first_use_eval :
    Proxy.CreateProxyDialer pBogus parseFail = GoStep.ok ({ Dialer := none }, none) ∧
    ContextDialer.Dial { Dialer := none } "tcp" "target.example:22" = GoResult.crash nilDerefMsg ∧
    ContextDialer.DialContext { Dialer := none } none RaceEvent.dialCompleted "tcp" "target.example:22" =
      GoResult.crash nilDerefMsg := by
  refine ⟨by decide, rfl, rfl⟩

/-- Claim C3 (evaluation of the code at the failing input): when
http.ReadResponse fails, httpProxy.Dial dereferences the nil response
(resp.Body.Close before the error check) and panics; the socket is not
closed and the parse error is not returned. -/
theorem http_readresponse_error_eval :
    httpProxy.Dial
      { host := "proxy.example:8080", haveAuth := false, username := "",
        password := "", forward := FwdChoice.direct }
      { forwardDial := Except.ok { id := 7 }, parseErr := none, newRequestErr := none,
        writeErr := none, readResponse := Except.error (Err.msg "malformed HTTP response") } =
      (GoResult.crash nilDerefMsg, { connClosed := false, bodyClosed := false }) := rfl

/-- A fresh command tunnel dialer, as the factory builds it: Cmd is nil. -/
def npFresh : NetPipe :=
  { Command := "ssh -W target.example:22 gateway", Cmd := none }

/-- Claim C7 (evaluation of the code at the failing input): when the
context is already cancelled and the select observes it before the
background goroutine assigned n.Cmd, or after a failed Start, the kill
chain n.Cmd.Process.Kill() dereferences nil and panics instead of returning
the cancellation error; only with a successfully started process (even one
that already exited) does it return ctx.Err(). -/
theorem netpipe_cancel_kill_eval :
    NetPipe.DialContext npFresh (NetPipeRace.ctxFirst CtxDone.canceled DialProgress.beforeAssign) =
      GoResult.crash nilDerefMsg ∧
    NetPipe.DialContext npFresh
        (NetPipeRace.ctxFirst CtxDone.canceled (DialProgress.afterStart false false)) =
      GoResult.crash nilDerefMsg ∧
    NetPipe.DialContext npFresh
        (NetPipeRace.ctxFirst CtxDone.canceled (DialProgress.afterStart true true)) =
      GoResult.error Err.ctxCanceled := by
  refine ⟨rfl, rfl, rfl⟩

/-- Claim C8 (evaluation of the code at the failing input): when Cmd.Start
fails, NetPipe.Dial still returns the client pipe end (the named return con
is always the client end of net.Pipe) together with the start error, and
that end is not closed. -/
theorem netpipe_dial_startfail_eval :
    (NetPipe.Dial npFresh { client := { id := 1 }, server := { id := 2 } }
        (some (Err.msg "fork exec sh: no such file or directory"))).1 =
      ({ id := 1 }, some (Err.msg "fork exec sh: no such file or directory")) ∧
    (NetPipe.Dial npFresh { client := { id := 1 }, server := { id := 2 } }
        (some (Err.msg "fork exec sh: no such file or directory"))).2.2.clientClosed = false := by
  refine ⟨rfl, rfl⟩

/-- Claim C4: when the response of the proxy parses with a status code
other than 200, httpProxy.Dial closes the proxy connection (and the
response body), returns no connection, and the returned error message
contains the offending status code. -/
theorem httpDial_non200 (s : httpProxy) (env : HttpDialEnv) (c : Conn) (resp : HttpResponse)
    (h1 : env.forwardDial = Except.ok c) (h2 : env.parseErr = none)
    (h3 : env.newRequestErr = none) (h4 : env.writeErr = none)
    (h5 : env.readResponse = Except.ok resp) (h6 : resp.StatusCode ≠ 200) :
    httpProxy.Dial s env =
      (GoResult.error (Err.msg ("Connect server using proxy error, StatusCode ["
          ++ toString resp.StatusCode ++ "]")),
        { connClosed := true, bodyClosed := true }) ∧
    (∃ pre post : String,
      "Connect server using proxy error, StatusCode [" ++ toString resp.StatusCode ++ "]"
        = pre ++ toString resp.StatusCode ++ post) := by
  refine ⟨?_, ⟨"Connect server using proxy error, StatusCode [", "]", rfl⟩⟩
  simp only [httpProxy.Dial, h1, h2, h3, h4, h5]
  rw [if_pos h6]

/-- Claim C5: when the response of the proxy parses with status code
exactly 200, httpProxy.Dial closes the response body, leaves the proxy
connection open, and returns with a nil error the very connection obtained
from the forwarder. -/
theorem httpDial_success200 (s : httpProxy) (env : HttpDialEnv) (c : Conn) (resp : HttpResponse)
    (h1 : env.forwardDial = Except.ok c) (h2 : env.parseErr = none)
    (h3 : env.newRequestErr = none) (h4 : env.writeErr = none)
    (h5 : env.readResponse = Except.ok resp) (h6 : resp.StatusCode = 200) :
    httpProxy.Dial s env = (GoResult.ok c, { connClosed := false, bodyClosed := true }) := by
  simp only [httpProxy.Dial, h1, h2, h3, h4, h5, h6]
  rw [if_neg (by simp)]

/-- Sample HTTP CONNECT dialer used by the witnesses. -/
def sampleHttpProxy : httpProxy :=
  { host := "proxy.example:8080", haveAuth := false, username := "", password := "",
    forward := FwdChoice.direct }

/-- Environment in which the proxy answers with status 403. -/
def env403 : HttpDialEnv :=
  { forwardDial := Except.ok { id := 7 }, parseErr := none, newRequestErr := none,
    writeErr := none, readResponse := Except.ok { StatusCode := 403 } }

/-- Environment in which the proxy answers with status 200. -/
def env200 : HttpDialEnv :=
  { forwardDial := Except.ok { id := 7 }, parseErr := none, newRequestErr := none,
    writeErr := none, readResponse := Except.ok { StatusCode := 200 } }

/-- Witness for claim C4 at a concrete environment answering 403. -/
theorem httpDial_non200_witness :
    httpProxy.Dial sampleHttpProxy env403 =
      (GoResult.error (Err.msg ("Connect server using proxy error, StatusCode ["
          ++ toString (403 : Int) ++ "]")),
        { connClosed := true, bodyClosed := true }) ∧
    (∃ pre post : String,
      "Connect server using proxy error, StatusCode [" ++ toString (403 : Int) ++ "]"
        = pre ++ toString (403 : Int) ++ post) :=
  httpDial_non200 sampleHttpProxy env403 { id := 7 } { StatusCode := 403 }
    rfl rfl rfl rfl rfl (by decide)

/-- Witness for claim C5 at a concrete environment answering 200. -/
theorem httpDial_success200_witness :
    httpProxy.Dial sampleHttpProxy env200 =
      (GoResult.ok { id := 7 }, { connClosed := false, bodyClosed := true }) :=
  httpDial_success200 sampleHttpProxy env200 { id := 7 } { StatusCode := 200 }
    rfl rfl rfl rfl rfl rfl

/-- Claim C6: DialContext delegates to the native DialContext of the
wrapped dialer when one exists; otherwise, with first to complete
selection, a completed dial yields exactly its connection or error, and a
context firing first yields immediately the error of the context, which is
a context sentinel distinguishable from every ordinary error. -/
theorem ContextDialer_DialContext_behavior (c : ContextDialer GoDialer) (d : GoDialer)
    (ctx : Option CtxDone) (network addr : String) (hd : c.Dialer = some d) :
    (∀ f, d.dialContext = some f →
      ∀ ev, ContextDialer.DialContext c ctx ev network addr = f ctx network addr) ∧
    (d.dialContext = none →
      (ContextDialer.DialContext c ctx RaceEvent.dialCompleted network addr
          = d.dial network addr) ∧
      (∀ dn, ContextDialer.DialContext c ctx (RaceEvent.ctxFired dn) network addr
            = GoResult.error (CtxDone.err dn) ∧
        Err.isCtxErr (CtxDone.err dn) = true ∧
        (∀ m0, CtxDone.err dn ≠ Err.msg m0))) := by
  constructor
  · intro f hf ev
    simp only [ContextDialer.DialContext, hd, hf]
  · intro hn
    constructor
    · simp only [ContextDialer.DialContext, hd, hn]
      cases hdd : d.dial network addr <;> rfl
    · intro dn
      refine ⟨?_, ?_, ?_⟩
      · simp only [ContextDialer.DialContext, hd, hn]
      · cases dn <;> rfl
      · intro m0 hcontra
        cases dn <;> simp [CtxDone.err] at hcontra

/-- A wrapped dialer exposing only the blocking Dial operation. -/
def blockingOnly : GoDialer :=
  { dial := fun _ _ => GoResult.ok { id := 3 }, dialContext := none }

/-- Witness for claim C6: at a concrete blocking only dialer, the fallback
with a completed dial returns exactly the blocking dial result. -/
theorem ContextDialer_DialContext_behavior_witness :
    ContextDialer.DialContext { Dialer := some blockingOnly } none RaceEvent.dialCompleted
        "tcp" "target.example:22"
      = blockingOnly.dial "tcp" "target.example:22" :=
  ((ContextDialer_DialContext_behavior { Dialer := some blockingOnly } blockingOnly none
      "tcp" "target.example:22" rfl).2 rfl).1

/-- Claim C10: for a wrapped dialer without a native DialContext, a
DialContext call whose cancellation never fires (so the select can only
take the dial channels) returns exactly what the blocking Dial of the
wrapper returns, and the Dial of the wrapper is exactly the Dial of the
wrapped dialer. -/
theorem contextDialer_wrapper_refinement (c : ContextDialer GoDialer) (d : GoDialer)
    (ctx : Option CtxDone) (network addr : String)
    (hd : c.Dialer = some d) (hnc : d.dialContext = none) :
    ContextDialer.DialContext c ctx RaceEvent.dialCompleted network addr
      = ContextDialer.Dial c network addr ∧
    ContextDialer.Dial c network addr = d.dial network addr := by
  have hDial : ContextDialer.Dial c network addr = d.dial network addr := by
    simp only [ContextDialer.Dial, hd]
  refine ⟨?_, hDial⟩
  rw [hDial]
  simp only [ContextDialer.DialContext, hd, hnc]
  cases hdd : d.dial network addr <;> rfl

/-- Witness for claim C10 at a concrete blocking only dialer. -/
theorem contextDialer_wrapper_refinement_witness :
    ContextDialer.DialContext { Dialer := some blockingOnly } none RaceEvent.dialCompleted
        "tcp" "front.example:2222"
      = ContextDialer.Dial { Dialer := some blockingOnly } "tcp" "front.example:2222" :=
  (contextDialer_wrapper_refinement { Dialer := some blockingOnly } blockingOnly none
      "tcp" "front.example:2222" rfl rfl).1

/-- An http configuration whose composed proxy URL does not parse. -/
def pHttpBadAddr : Proxy :=
  { typ := "http", Addr := "bad addr with spaces", Port := "8080", User := "",
    Password := "", Command := "", Forwarder := none }

/-- Claim C9 counterexample: an unrecognized proxy type yields a nil
construction error (the failure is not surfaced at construction), and a
malformed proxy address has its parse error discarded, after which
construction panics on the nil URL instead of returning an error. -/
theorem factory_construction_error_counterexample :
    Proxy.CreateProxyDialer pBogus parseFail = GoStep.ok ({ Dialer := none }, none) ∧
    Proxy.CreateProxyDialer pHttpBadAddr parseFail = GoStep.crash nilDerefMsg := by
  refine ⟨by decide, by decide⟩

/-- Claim C9 (amended): configuration failures are not surfaced at
construction time: an unrecognized proxy type makes the factory return a
nil error together with a wrapper around a nil dialer (the failure is
deferred to first use), and a proxy URL that fails to parse has its error
discarded, after which construction dereferences the nil URL and panics
rather than returning an error. -/
theorem factory_construction_error_amended (p : Proxy) (urlParse : String → Option URLRec) :
    (p.typ ≠ "http" → p.typ ≠ "https" → p.typ ≠ "socks" → p.typ ≠ "socks5" →
      p.typ ≠ "command" →
      Proxy.CreateProxyDialer p urlParse = GoStep.ok ({ Dialer := none }, none)) ∧
    ((p.typ = "http" ∨ p.typ = "https") → urlParse (proxyURLString p) = none →
      Proxy.CreateProxyDialer p urlParse = GoStep.crash nilDerefMsg) := by
  constructor
  · intro h1 h2 h3 h4 h5
    have n1 : ¬(p.typ = "http" ∨ p.typ = "https") := not_or.mpr ⟨h1, h2⟩
    have n2 : ¬(p.typ = "socks" ∨ p.typ = "socks5") := not_or.mpr ⟨h3, h4⟩
    simp only [Proxy.CreateProxyDialer, if_neg n1, if_neg n2, if_neg h5]
  · intro hty hparse
    have e1 : Proxy.CreateHttpProxyDialer p urlParse = GoStep.crash nilDerefMsg := by
      simp only [Proxy.CreateHttpProxyDialer, hparse, FromURL]
    simp only [Proxy.CreateProxyDialer, if_pos hty, e1]

/-- A configuration with another unrecognized type, for the amended
witness. -/
def pUnknown : Proxy :=
  { typ := "unknown", Addr := "proxy.example", Port := "", User := "", Password := "",
    Command := "", Forwarder := none }

/-- Witness for the amended claim C9 at a concrete unrecognized type. -/
theorem factory_construction_error_amended_witness :
    Proxy.CreateProxyDialer pUnknown parseFail = GoStep.ok ({ Dialer := none }, none) :=
  (factory_construction_error_amended pUnknown parseFail).1
    (by decide) (by decide) (by decide) (by decide) (by decide)
